import Mathlib

/-!
Shallow embedding of the gke-operator lifecycle reconciliation engine
(`pkg/gke/delete.go`) and the security compliance policy validator
(`pkg/gke/security_compliance_test.go`), together with proofs of their
specified behaviour.

Modelling conventions:
* a Go `error` value is `Option String` (its message), `nil` being `none`;
* a Go `map[string]string` that may be `nil` is `Option (List (String × String))`
  with association-list lookup (Go maps have unique keys);
* pointers to configuration structs are `Option`;
* the remote client is a trace `Nat → Option String` giving the error returned
  by its i-th invocation (0-based);
* `context.Done` is a trace `Nat → Bool` saying whether the cancellation signal
  has fired when attempt i is issued, and `context.Err` is a fixed string.
-/

/-! ## Data model (the fields of `gkev1.GKEClusterConfig` read by the embedded functions) -/

structure GKEPrivateClusterConfig where
  enablePrivateNodes : Bool
deriving DecidableEq, Repr

structure GKEBinaryAuthorization where
  enabled : Bool
deriving DecidableEq, Repr

structure GKEShieldedNodes where
  enabled : Bool
deriving DecidableEq, Repr

structure GKELegacyAbac where
  enabled : Bool
deriving DecidableEq, Repr

structure GKEClientCertificateConfig where
  issueClientCertificate : Bool
deriving DecidableEq, Repr

structure GKEMasterAuth where
  username : String
  password : String
  clientCertificateConfig : Option GKEClientCertificateConfig
deriving DecidableEq, Repr

structure GKEDatabaseEncryption where
  state : String
deriving DecidableEq, Repr

structure GKEShieldedInstanceConfig where
  enableIntegrityMonitoring : Bool
  enableSecureBoot : Bool
deriving DecidableEq, Repr

structure GKEWorkloadMetadataConfig where
  mode : String
deriving DecidableEq, Repr

structure GKENodeConfig where
  shieldedInstanceConfig : Option GKEShieldedInstanceConfig
  workloadMetadataConfig : Option GKEWorkloadMetadataConfig
deriving DecidableEq, Repr

structure GKENodePoolConfig where
  config : Option GKENodeConfig
deriving DecidableEq, Repr

structure GKEClusterConfigSpec where
  enableKubernetesAlpha : Option Bool
  privateClusterConfig : Option GKEPrivateClusterConfig
  binaryAuthorization : Option GKEBinaryAuthorization
  shieldedNodes : Option GKEShieldedNodes
  legacyAbac : Option GKELegacyAbac
  masterAuth : Option GKEMasterAuth
  databaseEncryption : Option GKEDatabaseEncryption
  nodePools : List GKENodePoolConfig
  labels : Option (List (String × String))
deriving DecidableEq, Repr

structure ObjectMeta where
  annotations : Option (List (String × String))
deriving DecidableEq, Repr

structure GKEClusterConfig where
  objectMeta : ObjectMeta
  spec : GKEClusterConfigSpec
deriving DecidableEq, Repr

/-! ## Security compliance validator (`validateSecurityCompliance`)

Each `...Bad` helper is the literal transcription of one `if` condition of the
Go function; `validateSecurityCompliance` chains them in source order. -/

/-- Go: `config.Spec.EnableKubernetesAlpha != nil && *config.Spec.EnableKubernetesAlpha`. -/
def alphaBad (s : GKEClusterConfigSpec) : Bool :=
  match s.enableKubernetesAlpha with
  | some b => b
  | none => false

/-- Go: `config.Spec.PrivateClusterConfig == nil || !config.Spec.PrivateClusterConfig.EnablePrivateNodes`. -/
def privateBad (s : GKEClusterConfigSpec) : Bool :=
  match s.privateClusterConfig with
  | none => true
  | some p => !p.enablePrivateNodes

/-- Go: `config.Spec.BinaryAuthorization == nil || !config.Spec.BinaryAuthorization.Enabled`. -/
def binaryAuthBad (s : GKEClusterConfigSpec) : Bool :=
  match s.binaryAuthorization with
  | none => true
  | some b => !b.enabled

/-- Go: `config.Spec.ShieldedNodes == nil || !config.Spec.ShieldedNodes.Enabled`. -/
def shieldedNodesBad (s : GKEClusterConfigSpec) : Bool :=
  match s.shieldedNodes with
  | none => true
  | some sh => !sh.enabled

/-- Go: `config.Spec.LegacyAbac != nil && config.Spec.LegacyAbac.Enabled`. -/
def abacBad (s : GKEClusterConfigSpec) : Bool :=
  match s.legacyAbac with
  | none => false
  | some a => a.enabled

/-- Go: `config.Spec.MasterAuth != nil && (Username != "" || Password != "")`. -/
def basicAuthBad (s : GKEClusterConfigSpec) : Bool :=
  match s.masterAuth with
  | none => false
  | some ma => ma.username != "" || ma.password != ""

/-- Go: `MasterAuth != nil && ClientCertificateConfig != nil && IssueClientCertificate`. -/
def clientCertBad (s : GKEClusterConfigSpec) : Bool :=
  match s.masterAuth with
  | none => false
  | some ma =>
    match ma.clientCertificateConfig with
    | none => false
    | some cc => cc.issueClientCertificate

/-- Go: `config.Spec.DatabaseEncryption == nil || config.Spec.DatabaseEncryption.State != "ENCRYPTED"`. -/
def dbEncryptionBad (s : GKEClusterConfigSpec) : Bool :=
  match s.databaseEncryption with
  | none => true
  | some d => d.state != "ENCRYPTED"

/-- Go: `ShieldedInstanceConfig == nil || !EnableIntegrityMonitoring || !EnableSecureBoot`
on a node pool's (non-nil) config. -/
def poolShieldedBad (cfg : GKENodeConfig) : Bool :=
  match cfg.shieldedInstanceConfig with
  | none => true
  | some si => !si.enableIntegrityMonitoring || !si.enableSecureBoot

/-- Go: `WorkloadMetadataConfig == nil || Mode != "GKE_METADATA"` on a node pool's
(non-nil) config. -/
def poolMetadataBad (cfg : GKENodeConfig) : Bool :=
  match cfg.workloadMetadataConfig with
  | none => true
  | some w => w.mode != "GKE_METADATA"

/-- The `for i, nodePool := range config.Spec.NodePools` loop of
`validateSecurityCompliance`, with `i` the index of the first pool of the list. -/
def validateNodePools : Nat → List GKENodePoolConfig → Option String
  | _, [] => none
  | i, np :: rest =>
    match np.config with
    | none => some s!"node pool {i} config cannot be nil for security compliance"
    | some cfg =>
      if poolShieldedBad cfg then
        some s!"node pool {i} must have shielded instance config with integrity monitoring and secure boot enabled"
      else if poolMetadataBad cfg then
        some s!"node pool {i} must use GKE_METADATA mode for security compliance"
      else validateNodePools (i + 1) rest

/-- `validateSecurityCompliance` from `pkg/gke/security_compliance_test.go`:
returns the first violated checklist rule's message, `none` when compliant. -/
def validateSecurityCompliance (c : GKEClusterConfig) : Option String :=
  if alphaBad c.spec then some "alpha features must be disabled for security compliance"
  else if privateBad c.spec then some "private nodes must be enabled for security compliance"
  else if binaryAuthBad c.spec then some "binary authorization must be enabled for security compliance"
  else if shieldedNodesBad c.spec then some "shielded nodes must be enabled for security compliance"
  else if abacBad c.spec then some "legacy ABAC must be disabled for security compliance"
  else if basicAuthBad c.spec then some "basic authentication must be disabled for security compliance"
  else if clientCertBad c.spec then some "client certificate issuance must be disabled for security compliance"
  else if dbEncryptionBad c.spec then some "database encryption must be enabled for security compliance"
  else validateNodePools 0 c.spec.nodePools

/-- `needsSecurityCompliance` from `pkg/gke/security_compliance_test.go`. -/
def needsSecurityCompliance (c : GKEClusterConfig) : Bool :=
  (match c.spec.labels with
   | none => false
   | some ls =>
     match ls.lookup "compliance" with
     | some v => v == "security"
     | none => false) ||
  (match c.objectMeta.annotations with
   | none => false
   | some ans =>
     match ans.lookup "gke.cattle.io/security-compliance" with
     | some v => v == "true"
     | none => false)

/-! ## Delete path (`pkg/gke/delete.go`) -/

/-- Helper for `strContains`: does `sub` occur as a contiguous run of `l`? -/
def containsSub (sub : List Char) : List Char → Bool
  | [] => sub.isEmpty
  | c :: rest => sub.isPrefixOf (c :: rest) || containsSub sub rest

/-- Go: `strings.Contains s sub` — substring containment. -/
def strContains (s sub : String) : Bool :=
  containsSub sub.toList s.toList

/-- Modelled from the spec: the `errWait` marker constant is declared outside the
provided sources; the spec describes it only as the known
"operation already in progress / resource busy" marker string.  No claim depends
on its literal value, only on containment of it in an error message. -/
def errWait : String := "busy"

/-- Modelled from the spec: the `errNotFound` marker constant is declared outside
the provided sources; the spec describes it only as the known "not found" marker
string.  No claim depends on its literal value. -/
def errNotFound : String := "not found"

/-- `waitSec` from `delete.go`. -/
def waitSec : Nat := 30

/-- `backoffSteps` from `delete.go`. -/
def backoffSteps : Nat := 12

/-- The fields of `k8s.io/apimachinery`'s `wait.Backoff` set by `delete.go`
(`Factor`, `Jitter` and `Cap` are left at their zero values, so `Step()` returns
`Duration` unchanged each time: a fixed-interval schedule). -/
structure Backoff where
  duration : Nat
  steps : Nat
deriving DecidableEq, Repr

/-- The package-level `backoff` value of `delete.go`: 30-second interval, 12 steps. -/
def backoff : Backoff := { duration := waitSec, steps := backoffSteps }

/-- The Go `error` returned by `wait.ExponentialBackoff`: `nil` (`ok`), the error
returned by the condition function (`condErr`), or the distinguished
`wait.ErrWaitTimeout` value (`timeout`). -/
inductive WaitResult where
  | ok : WaitResult
  | condErr : String → WaitResult
  | timeout : WaitResult
deriving DecidableEq, Repr

/-- The loop of `k8s.io/apimachinery`'s `wait.ExponentialBackoff` with the
`Factor = 0` (fixed-interval) backoff used by `delete.go`:

```
for backoff.Steps > 0 {
    if ok, err := fn(); err != nil || ok { return err }
    if backoff.Steps == 1 { break }
    time.Sleep(backoff.Step())   // Step() decrements Steps, returns Duration
}
return ErrWaitTimeout
```

`cond i` is the i-th invocation of the condition function (0-based); `calls`
counts invocations made so far and `sleeps` accumulates the slept durations in
reverse.  The result carries the final error, the number of condition
invocations, and the list of sleep durations in order. -/
def expBackoffGo (d : Nat) (cond : Nat → Bool × Option String) :
    Nat → Nat → List Nat → WaitResult × Nat × List Nat
  | 0, calls, sleeps => (WaitResult.timeout, calls, sleeps.reverse)
  | n + 1, calls, sleeps =>
    match cond calls with
    | (_, some e) => (WaitResult.condErr e, calls + 1, sleeps.reverse)
    | (true, none) => (WaitResult.ok, calls + 1, sleeps.reverse)
    | (false, none) =>
      if n = 0 then (WaitResult.timeout, calls + 1, sleeps.reverse)
      else expBackoffGo d cond n (calls + 1) (d :: sleeps)

/-- `wait.ExponentialBackoff backoff cond`. -/
def ExponentialBackoff (b : Backoff) (cond : Nat → Bool × Option String) :
    WaitResult × Nat × List Nat :=
  expBackoffGo b.duration cond b.steps 0 []

/-- The body of the condition closure passed to `wait.ExponentialBackoff` by
`RemoveCluster`, at attempt index `i` (0-based): first the
`select { case <-ctx.Done(): return false, ctx.Err() ... }` check, then the
`gkeClient.ClusterDelete` call and the marker-based error dispatch, in source
order (busy, not-found, other, success).  `ctxDone i` tells whether the
cancellation signal has fired when attempt `i` is issued, `ctxErr` is the value
of `ctx.Err()`, and `clusterDelete i` the error of the i-th remote call. -/
def removeClusterCond (ctxDone : Nat → Bool) (ctxErr : String)
    (clusterDelete : Nat → Option String) (i : Nat) : Bool × Option String :=
  if ctxDone i then (false, some ctxErr)
  else
    match clusterDelete i with
    | some msg =>
      if strContains msg errWait then (false, none)
      else if strContains msg errNotFound then (true, none)
      else (false, some msg)
    | none => (true, none)

/-- `RemoveCluster` from `delete.go` (resource-name construction and logging are
value-irrelevant and omitted): runs `wait.ExponentialBackoff` over the package
`backoff` with the condition above.  The result's second and third components
are the instrumentation of `expBackoffGo`: number of attempts issued and the
sleep schedule. -/
def RemoveCluster (ctxDone : Nat → Bool) (ctxErr : String)
    (clusterDelete : Nat → Option String) : WaitResult × Nat × List Nat :=
  ExponentialBackoff backoff (removeClusterCond ctxDone ctxErr clusterDelete)

/-- The tri-state `Status` outcome consumed by the caller's reconcile loop. -/
inductive Status where
  | Changed : Status
  | NotChanged : Status
  | Retry : Status
deriving DecidableEq, Repr

/-- `RemoveNodePool` from `delete.go`: issues the remote `NodePoolDelete` call
once (the body contains no loop, so only index 0 of the call trace is ever
consulted) and dispatches on its error in source order. -/
def RemoveNodePool (nodePoolDelete : Nat → Option String) : Status × Option String :=
  match nodePoolDelete 0 with
  | some msg =>
    if strContains msg errWait then (Status.Retry, none)
    else if strContains msg errNotFound then (Status.NotChanged, none)
    else (Status.NotChanged, some msg)
  | none => (Status.Changed, none)

/-- The spec's Error Classifier `{None, Busy, Absent, Fatal}`; `delete.go` inlines
this dispatch identically in `RemoveCluster` and `RemoveNodePool`. -/
inductive ErrClass where
  | None : ErrClass
  | Busy : ErrClass
  | Absent : ErrClass
  | Fatal : ErrClass
deriving DecidableEq, Repr

/-- The marker-based error classification inlined in both delete paths:
`nil → None`; message containing `errWait` → `Busy` (checked first); else
containing `errNotFound` → `Absent`; any other error → `Fatal`. -/
def classifyErr (e : Option String) : ErrClass :=
  match e with
  | none => ErrClass.None
  | some msg =>
    if strContains msg errWait then ErrClass.Busy
    else if strContains msg errNotFound then ErrClass.Absent
    else ErrClass.Fatal

/-! ## Spec-side characterisations

These definitions follow the words of the spec (fixed checklist in a fixed
order, first broken rule reported); the theorems compare them with the
source-derived `validateSecurityCompliance`. -/

/-- Spec: the (flag, message) pairs a single node pool at index `i` contributes to
the checklist, in rule order: nil config, shielded-instance settings, workload
metadata mode. -/
def poolRuleFlags (i : Nat) (np : GKENodePoolConfig) : List (Bool × String) :=
  [(np.config.isNone, s!"node pool {i} config cannot be nil for security compliance"),
   ((np.config.map poolShieldedBad).getD false,
     s!"node pool {i} must have shielded instance config with integrity monitoring and secure boot enabled"),
   ((np.config.map poolMetadataBad).getD false,
     s!"node pool {i} must use GKE_METADATA mode for security compliance")]

/-- Spec: the node-pool section of the checklist, pools in slice order, the first
pool carrying index `i`. -/
def poolsRuleFlags : Nat → List GKENodePoolConfig → List (Bool × String)
  | _, [] => []
  | i, np :: rest => poolRuleFlags i np ++ poolsRuleFlags (i + 1) rest

/-- Spec: the whole checklist of a snapshot, in the fixed contract order
(1 alpha, 2 private cluster, 3 binary authorization, 4 shielded nodes,
5 legacy ABAC, 6 master auth — basic auth then client certificate,
7 database encryption, 8 node pools in slice order); each entry is
(rule broken?, its violation message). -/
def ruleFlags (c : GKEClusterConfig) : List (Bool × String) :=
  [(alphaBad c.spec, "alpha features must be disabled for security compliance"),
   (privateBad c.spec, "private nodes must be enabled for security compliance"),
   (binaryAuthBad c.spec, "binary authorization must be enabled for security compliance"),
   (shieldedNodesBad c.spec, "shielded nodes must be enabled for security compliance"),
   (abacBad c.spec, "legacy ABAC must be disabled for security compliance"),
   (basicAuthBad c.spec, "basic authentication must be disabled for security compliance"),
   (clientCertBad c.spec, "client certificate issuance must be disabled for security compliance"),
   (dbEncryptionBad c.spec, "database encryption must be enabled for security compliance")]
  ++ poolsRuleFlags 0 c.spec.nodePools

/-- Spec: the eight-rule compliance checklist as a predicate, following the
claim's wording: alpha disabled or absent; private-cluster config present with
private nodes enabled; binary authorization present and enabled; shielded nodes
present and enabled; legacy ABAC absent or disabled; master auth absent or with
empty username and password and no client-certificate issuance; database
encryption present with state "ENCRYPTED"; every node pool with a non-nil
config, integrity monitoring and secure boot enabled, workload-metadata mode
"GKE_METADATA". -/
def CompliantChecklist (c : GKEClusterConfig) : Prop :=
  (c.spec.enableKubernetesAlpha = none ∨ c.spec.enableKubernetesAlpha = some false) ∧
  (∃ p, c.spec.privateClusterConfig = some p ∧ p.enablePrivateNodes = true) ∧
  (∃ b, c.spec.binaryAuthorization = some b ∧ b.enabled = true) ∧
  (∃ sh, c.spec.shieldedNodes = some sh ∧ sh.enabled = true) ∧
  (c.spec.legacyAbac = none ∨ ∃ a, c.spec.legacyAbac = some a ∧ a.enabled = false) ∧
  (∀ ma, c.spec.masterAuth = some ma →
    ma.username = "" ∧ ma.password = "" ∧
    ∀ cc, ma.clientCertificateConfig = some cc → cc.issueClientCertificate = false) ∧
  (∃ d, c.spec.databaseEncryption = some d ∧ d.state = "ENCRYPTED") ∧
  (∀ np ∈ c.spec.nodePools, ∃ cfg, np.config = some cfg ∧
    (∃ si, cfg.shieldedInstanceConfig = some si ∧
      si.enableIntegrityMonitoring = true ∧ si.enableSecureBoot = true) ∧
    (∃ w, cfg.workloadMetadataConfig = some w ∧ w.mode = "GKE_METADATA"))

/-! ## Bridge lemmas: the source validator computes the first broken checklist rule -/

theorem validateNodePools_eq_flags (pools : List GKENodePoolConfig) : ∀ i : Nat,
    validateNodePools i pools = ((poolsRuleFlags i pools).find? Prod.fst).map Prod.snd := by
  induction pools with
  | nil => intro i; simp [validateNodePools, poolsRuleFlags]
  | cons np rest ih =>
    intro i
    cases hc : np.config with
    | none =>
      simp [validateNodePools, poolsRuleFlags, poolRuleFlags, hc, List.find?]
    | some cfg =>
      cases hs : poolShieldedBad cfg with
      | true =>
        simp [validateNodePools, poolsRuleFlags, poolRuleFlags, hc, hs, List.find?]
      | false =>
        cases hm : poolMetadataBad cfg with
        | true =>
          simp [validateNodePools, poolsRuleFlags, poolRuleFlags, hc, hs, hm, List.find?]
        | false =>
          simp [validateNodePools, poolsRuleFlags, poolRuleFlags, hc, hs, hm, List.find?, ih]

theorem validate_eq_firstFlag (c : GKEClusterConfig) :
    validateSecurityCompliance c = ((ruleFlags c).find? Prod.fst).map Prod.snd := by
  unfold validateSecurityCompliance ruleFlags
  cases h1 : alphaBad c.spec <;> simp [h1, List.find?]
  cases h2 : privateBad c.spec <;> simp [h2, List.find?]
  cases h3 : binaryAuthBad c.spec <;> simp [h3, List.find?]
  cases h4 : shieldedNodesBad c.spec <;> simp [h4, List.find?]
  cases h5 : abacBad c.spec <;> simp [h5, List.find?]
  cases h6 : basicAuthBad c.spec <;> simp [h6, List.find?]
  cases h7 : clientCertBad c.spec <;> simp [h7, List.find?]
  cases h8 : dbEncryptionBad c.spec <;> simp [h8, List.find?]
  exact validateNodePools_eq_flags c.spec.nodePools 0

/-! ## Per-rule correspondences between the Boolean checks and the spec's wording -/

theorem alphaBad_false_iff (s : GKEClusterConfigSpec) :
    alphaBad s = false ↔ (s.enableKubernetesAlpha = none ∨ s.enableKubernetesAlpha = some false) := by
  cases h : s.enableKubernetesAlpha with
  | none => simp [alphaBad, h]
  | some b => cases b <;> simp [alphaBad, h]

theorem privateBad_false_iff (s : GKEClusterConfigSpec) :
    privateBad s = false ↔ ∃ p, s.privateClusterConfig = some p ∧ p.enablePrivateNodes = true := by
  cases h : s.privateClusterConfig <;> simp [privateBad, h]

theorem binaryAuthBad_false_iff (s : GKEClusterConfigSpec) :
    binaryAuthBad s = false ↔ ∃ b, s.binaryAuthorization = some b ∧ b.enabled = true := by
  cases h : s.binaryAuthorization <;> simp [binaryAuthBad, h]

theorem shieldedNodesBad_false_iff (s : GKEClusterConfigSpec) :
    shieldedNodesBad s = false ↔ ∃ sh, s.shieldedNodes = some sh ∧ sh.enabled = true := by
  cases h : s.shieldedNodes <;> simp [shieldedNodesBad, h]

theorem abacBad_false_iff (s : GKEClusterConfigSpec) :
    abacBad s = false ↔ (s.legacyAbac = none ∨ ∃ a, s.legacyAbac = some a ∧ a.enabled = false) := by
  cases h : s.legacyAbac <;> simp [abacBad, h]

theorem basicAuthBad_false_iff (s : GKEClusterConfigSpec) :
    basicAuthBad s = false ↔ ∀ ma, s.masterAuth = some ma → ma.username = "" ∧ ma.password = "" := by
  cases h : s.masterAuth <;> simp [basicAuthBad, h]

theorem clientCertBad_false_iff (s : GKEClusterConfigSpec) :
    clientCertBad s = false ↔
      ∀ ma, s.masterAuth = some ma →
        ∀ cc, ma.clientCertificateConfig = some cc → cc.issueClientCertificate = false := by
  cases h : s.masterAuth with
  | none => simp [clientCertBad, h]
  | some ma => cases hcc : ma.clientCertificateConfig <;> simp [clientCertBad, h, hcc]

theorem dbEncryptionBad_false_iff (s : GKEClusterConfigSpec) :
    dbEncryptionBad s = false ↔ ∃ d, s.databaseEncryption = some d ∧ d.state = "ENCRYPTED" := by
  cases h : s.databaseEncryption <;> simp [dbEncryptionBad, h]

theorem poolShieldedBad_false_iff (cfg : GKENodeConfig) :
    poolShieldedBad cfg = false ↔
      ∃ si, cfg.shieldedInstanceConfig = some si ∧
        si.enableIntegrityMonitoring = true ∧ si.enableSecureBoot = true := by
  cases h : cfg.shieldedInstanceConfig <;> simp [poolShieldedBad, h]

theorem poolMetadataBad_false_iff (cfg : GKENodeConfig) :
    poolMetadataBad cfg = false ↔
      ∃ w, cfg.workloadMetadataConfig = some w ∧ w.mode = "GKE_METADATA" := by
  cases h : cfg.workloadMetadataConfig <;> simp [poolMetadataBad, h]

theorem poolFlags_false_iff (i : Nat) (np : GKENodePoolConfig) :
    (∀ fl ∈ poolRuleFlags i np, fl.1 = false) ↔
      (∃ cfg, np.config = some cfg ∧
        (∃ si, cfg.shieldedInstanceConfig = some si ∧
          si.enableIntegrityMonitoring = true ∧ si.enableSecureBoot = true) ∧
        (∃ w, cfg.workloadMetadataConfig = some w ∧ w.mode = "GKE_METADATA")) := by
  cases h : np.config with
  | none => simp [poolRuleFlags, h]
  | some cfg =>
    simp [poolRuleFlags, h, ← poolShieldedBad_false_iff, ← poolMetadataBad_false_iff]

theorem poolsFlags_false_iff (pools : List GKENodePoolConfig) : ∀ i : Nat,
    (∀ fl ∈ poolsRuleFlags i pools, fl.1 = false) ↔
      (∀ np ∈ pools, ∃ cfg, np.config = some cfg ∧
        (∃ si, cfg.shieldedInstanceConfig = some si ∧
          si.enableIntegrityMonitoring = true ∧ si.enableSecureBoot = true) ∧
        (∃ w, cfg.workloadMetadataConfig = some w ∧ w.mode = "GKE_METADATA")) := by
  induction pools with
  | nil => intro i; simp [poolsRuleFlags]
  | cons np rest ih =>
    intro i
    rw [poolsRuleFlags, List.forall_mem_append, List.forall_mem_cons,
      poolFlags_false_iff i np, ih (i + 1)]

/-- **C1.** A cluster configuration snapshot passes `validateSecurityCompliance`
(returns `none`) exactly when it satisfies all eight checklist rules; in
particular any snapshot violating a rule — e.g. one obtained from a compliant
snapshot by breaking a single rule — receives a non-`none` violation. -/
theorem validateSecurityCompliance_eq_none_iff (c : GKEClusterConfig) :
    validateSecurityCompliance c = none ↔ CompliantChecklist c := by
  rw [validate_eq_firstFlag, Option.map_eq_none', List.find?_eq_none]
  simp only [Bool.not_eq_true]
  unfold CompliantChecklist
  rw [← alphaBad_false_iff, ← privateBad_false_iff, ← binaryAuthBad_false_iff,
    ← shieldedNodesBad_false_iff, ← abacBad_false_iff, ← dbEncryptionBad_false_iff,
    ← poolsFlags_false_iff c.spec.nodePools 0]
  unfold ruleFlags
  rw [List.forall_mem_append]
  simp only [List.forall_mem_cons, List.forall_mem_nil]
  constructor
  · rintro ⟨⟨h1, h2, h3, h4, h5, h6, h7, h8, -⟩, hp⟩
    refine ⟨by simpa using h1, by simpa using h2, by simpa using h3, by simpa using h4,
      by simpa using h5, ?_, by simpa using h8, hp⟩
    intro ma hma
    have h6' : basicAuthBad c.spec = false := by simpa using h6
    have h7' : clientCertBad c.spec = false := by simpa using h7
    exact ⟨((basicAuthBad_false_iff c.spec).mp h6' ma hma).1,
      ((basicAuthBad_false_iff c.spec).mp h6' ma hma).2,
      (clientCertBad_false_iff c.spec).mp h7' ma hma⟩
  · rintro ⟨h1, h2, h3, h4, h5, h6, h8, hp⟩
    refine ⟨⟨by simpa using h1, by simpa using h2, by simpa using h3, by simpa using h4,
      by simpa using h5, ?_, ?_, by simpa using h8, by simp⟩, hp⟩
    · have : basicAuthBad c.spec = false :=
        (basicAuthBad_false_iff c.spec).mpr fun ma hma => ⟨(h6 ma hma).1, (h6 ma hma).2.1⟩
      simpa using this
    · have : clientCertBad c.spec = false :=
        (clientCertBad_false_iff c.spec).mpr fun ma hma => (h6 ma hma).2.2
      simpa using this

/-- **C2.** On a snapshot breaking two or more checklist rules,
`validateSecurityCompliance` returns the violation message of the earliest
broken rule in the fixed checklist order (the head of `ruleFlags`'s broken
entries), short-circuiting rather than aggregating. -/
theorem validateSecurityCompliance_first_violation (c : GKEClusterConfig)
    (h : 2 ≤ (ruleFlags c).countP Prod.fst) :
    ∃ fl, (ruleFlags c).find? Prod.fst = some fl ∧ fl.1 = true ∧
      validateSecurityCompliance c = some fl.2 := by
  have hpos : 0 < (ruleFlags c).countP Prod.fst := lt_of_lt_of_le (by norm_num) h
  have hex : ∃ a ∈ ruleFlags c, a.1 = true := by
    simpa using List.countP_pos_iff.mp hpos
  have hs : ((ruleFlags c).find? Prod.fst).isSome := by
    apply List.find?_isSome.mpr
    simpa using hex
  obtain ⟨fl, hfl⟩ := Option.isSome_iff_exists.mp hs
  refine ⟨fl, hfl, List.find?_some hfl, ?_⟩
  rw [validate_eq_firstFlag, hfl, Option.map_some']

/-! ## Concrete configurations used as witnesses -/

/-- The fully compliant snapshot of the repository's own
`createValidSecurityConfig` test helper, restricted to the fields the embedded
functions read. -/
def validSecurityConfig : GKEClusterConfig :=
  { objectMeta := { annotations := none },
    spec :=
      { enableKubernetesAlpha := some false,
        privateClusterConfig := some { enablePrivateNodes := true },
        binaryAuthorization := some { enabled := true },
        shieldedNodes := some { enabled := true },
        legacyAbac := some { enabled := false },
        masterAuth := some
          { username := "", password := "",
            clientCertificateConfig := some { issueClientCertificate := false } },
        databaseEncryption := some { state := "ENCRYPTED" },
        nodePools :=
          [{ config := some
              { shieldedInstanceConfig := some
                  { enableIntegrityMonitoring := true, enableSecureBoot := true },
                workloadMetadataConfig := some { mode := "GKE_METADATA" } } }],
        labels := some [("compliance", "security")] } }

/-- `validSecurityConfig` with two rules broken at once: alpha features enabled
(rule 1) and binary authorization disabled (rule 3). -/
def doublyViolatingConfig : GKEClusterConfig :=
  { validSecurityConfig with
    spec :=
      { validSecurityConfig.spec with
        enableKubernetesAlpha := some true,
        binaryAuthorization := some { enabled := false } } }

/-- The Go zero-value `&gkev1.GKEClusterConfig{}`: every pointer and map nil,
no node pools. -/
def emptyGKEClusterConfig : GKEClusterConfig :=
  { objectMeta := { annotations := none },
    spec :=
      { enableKubernetesAlpha := none,
        privateClusterConfig := none,
        binaryAuthorization := none,
        shieldedNodes := none,
        legacyAbac := none,
        masterAuth := none,
        databaseEncryption := none,
        nodePools := [],
        labels := none } }

/-- Witness for **C2**: `doublyViolatingConfig` breaks rules 1 and 3, and the
validator reports rule 1 (alpha), the earliest in checklist order. -/
theorem validateSecurityCompliance_first_violation_witness :
    2 ≤ (ruleFlags doublyViolatingConfig).countP Prod.fst ∧
      ∃ fl, (ruleFlags doublyViolatingConfig).find? Prod.fst = some fl ∧ fl.1 = true ∧
        validateSecurityCompliance doublyViolatingConfig = some fl.2 :=
  ⟨by decide, validateSecurityCompliance_first_violation doublyViolatingConfig (by decide)⟩

/-- **C8.** `needsSecurityCompliance` holds exactly when the label map has key
"compliance" with value "security" or the annotation map has key
"gke.cattle.io/security-compliance" with value "true" (exact matches); in
particular the Go zero-value configuration (both maps nil) yields `false`. -/
theorem needsSecurityCompliance_iff (c : GKEClusterConfig) :
    (needsSecurityCompliance c = true ↔
      (∃ ls, c.spec.labels = some ls ∧ ls.lookup "compliance" = some "security") ∨
      (∃ ans, c.objectMeta.annotations = some ans ∧
        ans.lookup "gke.cattle.io/security-compliance" = some "true")) ∧
    needsSecurityCompliance emptyGKEClusterConfig = false := by
  refine ⟨?_, by decide⟩
  cases hl : c.spec.labels with
  | none =>
    cases ha : c.objectMeta.annotations with
    | none => simp [needsSecurityCompliance, hl, ha]
    | some ans =>
      cases hk : ans.lookup "gke.cattle.io/security-compliance" with
      | none => simp [needsSecurityCompliance, hl, ha, hk]
      | some v => simp [needsSecurityCompliance, hl, ha, hk]
  | some ls =>
    cases hc : ls.lookup "compliance" with
    | none =>
      cases ha : c.objectMeta.annotations with
      | none => simp [needsSecurityCompliance, hl, hc, ha]
      | some ans =>
        cases hk : ans.lookup "gke.cattle.io/security-compliance" with
        | none => simp [needsSecurityCompliance, hl, hc, ha, hk]
        | some v => simp [needsSecurityCompliance, hl, hc, ha, hk]
    | some v =>
      cases ha : c.objectMeta.annotations with
      | none => simp [needsSecurityCompliance, hl, hc, ha]
      | some ans =>
        cases hk : ans.lookup "gke.cattle.io/security-compliance" with
        | none => simp [needsSecurityCompliance, hl, hc, ha, hk]
        | some w => simp [needsSecurityCompliance, hl, hc, ha, hk]

/-! ## Helper lemmas for the delete path -/

/-- The remote attempts actually issued by `RemoveCluster` when `attempts`
condition invocations ran: attempt `i` issues a `ClusterDelete` call iff the
context check at `i` passes (the `select`/`default` guard in the source). -/
def removeClusterCallsList (ctxDone : Nat → Bool) (attempts : Nat) : List Nat :=
  (List.range attempts).filter fun i => !ctxDone i

theorem removeClusterCond_of_busy (ctxDone : Nat → Bool) (ctxErr : String)
    (cd : Nat → Option String) (i : Nat) (hdone : ctxDone i = false)
    (h : classifyErr (cd i) = ErrClass.Busy) :
    removeClusterCond ctxDone ctxErr cd i = (false, none) := by
  unfold removeClusterCond
  rw [hdone]
  cases hcd : cd i with
  | none => simp only [hcd, classifyErr] at h; simp at h
  | some m =>
    simp only [hcd, classifyErr] at h
    cases hw : strContains m errWait with
    | true => simp [hcd, hw]
    | false =>
      rw [hw] at h
      cases hn : strContains m errNotFound with
      | true => rw [hn] at h; simp at h
      | false => rw [hn] at h; simp at h

theorem removeClusterCond_of_absent (ctxDone : Nat → Bool) (ctxErr : String)
    (cd : Nat → Option String) (i : Nat) (hdone : ctxDone i = false)
    (h : classifyErr (cd i) = ErrClass.Absent) :
    removeClusterCond ctxDone ctxErr cd i = (true, none) := by
  unfold removeClusterCond
  rw [hdone]
  cases hcd : cd i with
  | none => simp only [hcd, classifyErr] at h; simp at h
  | some m =>
    simp only [hcd, classifyErr] at h
    cases hw : strContains m errWait with
    | true => rw [hw] at h; simp at h
    | false =>
      rw [hw] at h
      cases hn : strContains m errNotFound with
      | true => simp [hcd, hw, hn]
      | false => rw [hn] at h; simp at h

theorem removeClusterCond_of_none (ctxDone : Nat → Bool) (ctxErr : String)
    (cd : Nat → Option String) (i : Nat) (hdone : ctxDone i = false)
    (h : cd i = none) :
    removeClusterCond ctxDone ctxErr cd i = (true, none) := by
  unfold removeClusterCond
  rw [hdone, h]
  simp

theorem removeClusterCond_of_fatal (ctxDone : Nat → Bool) (ctxErr : String)
    (cd : Nat → Option String) (i : Nat) (m : String) (hdone : ctxDone i = false)
    (hcd : cd i = some m) (h : classifyErr (cd i) = ErrClass.Fatal) :
    removeClusterCond ctxDone ctxErr cd i = (false, some m) := by
  unfold removeClusterCond
  rw [hdone]
  simp only [hcd, classifyErr] at h
  cases hw : strContains m errWait with
  | true => rw [hw] at h; simp at h
  | false =>
    rw [hw] at h
    cases hn : strContains m errNotFound with
    | true => rw [hn] at h; simp at h
    | false => simp [hcd, hw, hn]

theorem removeClusterCond_of_cancelled (ctxDone : Nat → Bool) (ctxErr : String)
    (cd : Nat → Option String) (i : Nat) (hdone : ctxDone i = true) :
    removeClusterCond ctxDone ctxErr cd i = (false, some ctxErr) := by
  unfold removeClusterCond
  rw [hdone]
  simp

/-- Skipping a busy prefix: as long as the condition keeps answering
`(false, none)` and steps remain, the loop decrements the step budget,
increments the attempt counter and sleeps the fixed interval once per attempt. -/
theorem expBackoffGo_skip_busy (d : Nat) (cond : Nat → Bool × Option String) :
    ∀ (k steps calls : Nat) (sleeps : List Nat), k < steps →
      (∀ j, j < k → cond (calls + j) = (false, none)) →
      expBackoffGo d cond steps calls sleeps =
        expBackoffGo d cond (steps - k) (calls + k) (List.replicate k d ++ sleeps) := by
  intro k
  induction k with
  | zero => intro steps calls sleeps _ _; simp
  | succ k ih =>
    intro steps calls sleeps hlt hbusy
    cases steps with
    | zero => omega
    | succ n =>
      have h0 : cond calls = (false, none) := by
        have := hbusy 0 (Nat.succ_pos k)
        simpa using this
      have hn : ¬(n = 0) := by omega
      rw [expBackoffGo, h0]
      simp only [hn, if_false]
      have hb : ∀ j, j < k → cond (calls + 1 + j) = (false, none) := by
        intro j hj
        have := hbusy (j + 1) (by omega)
        have harg : calls + (j + 1) = calls + 1 + j := by omega
        rwa [harg] at this
      rw [ih n (calls + 1) (d :: sleeps) (by omega) hb]
      have e1 : n - k = n + 1 - (k + 1) := (Nat.succ_sub_succ n k).symm
      have e2 : calls + 1 + k = calls + (k + 1) := by omega
      have e3 : List.replicate k d ++ (d :: sleeps) = List.replicate (k + 1) d ++ sleeps := by
        rw [List.replicate_succ' k d, List.append_assoc, List.singleton_append]
      rw [e1, e2, e3]

/-- `RemoveCluster` with a remote client whose every answer classifies as Busy:
all `backoffSteps` attempts run and the loop ends in `ErrWaitTimeout`, having
slept the fixed interval between consecutive attempts. -/
theorem removeCluster_all_busy_eq (ctxErr : String) (cd : Nat → Option String)
    (h : ∀ i, classifyErr (cd i) = ErrClass.Busy) :
    RemoveCluster (fun _ => false) ctxErr cd =
      (WaitResult.timeout, 12, List.replicate 11 30) := by
  show expBackoffGo waitSec (removeClusterCond (fun _ => false) ctxErr cd) backoffSteps 0 [] =
    (WaitResult.timeout, 12, List.replicate 11 30)
  have hb : ∀ j, j < 11 → removeClusterCond (fun _ => false) ctxErr cd (0 + j) = (false, none) :=
    fun j _ => removeClusterCond_of_busy _ _ _ _ rfl (h (0 + j))
  rw [show backoffSteps = 12 from rfl, show waitSec = 30 from rfl,
    expBackoffGo_skip_busy 30 _ 11 12 0 [] (by omega) hb]
  rw [show (12 : Nat) - 11 = 0 + 1 from rfl]
  rw [expBackoffGo, removeClusterCond_of_busy _ _ _ _ rfl (h (0 + 11))]
  simp

/-! ## Claim theorems for the delete path -/

/-- **C3.** `RemoveNodePool` consults only the first remote `NodePoolDelete`
result (no internal retry loop) and maps it: busy marker → `(Retry, nil)`;
not-found marker → `(NotChanged, nil)`; any other error `E` → `(NotChanged, E)`
unchanged; success → `(Changed, nil)`. -/
theorem removeNodePool_spec :
    (∀ f g : Nat → Option String, f 0 = g 0 → RemoveNodePool f = RemoveNodePool g) ∧
    (∀ (f : Nat → Option String) (m : String), f 0 = some m →
      strContains m errWait = true → RemoveNodePool f = (Status.Retry, none)) ∧
    (∀ (f : Nat → Option String) (m : String), f 0 = some m →
      strContains m errWait = false → strContains m errNotFound = true →
      RemoveNodePool f = (Status.NotChanged, none)) ∧
    (∀ (f : Nat → Option String) (m : String), f 0 = some m →
      strContains m errWait = false → strContains m errNotFound = false →
      RemoveNodePool f = (Status.NotChanged, some m)) ∧
    (∀ f : Nat → Option String, f 0 = none → RemoveNodePool f = (Status.Changed, none)) := by
  refine ⟨?_, ?_, ?_, ?_, ?_⟩
  · intro f g h; unfold RemoveNodePool; rw [h]
  · intro f m h hw; unfold RemoveNodePool; rw [h]; simp [hw]
  · intro f m h hw hn; unfold RemoveNodePool; rw [h]; simp [hw, hn]
  · intro f m h hw hn; unfold RemoveNodePool; rw [h]; simp [hw, hn]
  · intro f h; unfold RemoveNodePool; rw [h]

/-- Witness for **C3**: each branch of the mapping at a concrete client. -/
theorem removeNodePool_spec_witness :
    RemoveNodePool (fun _ => some "busy") = (Status.Retry, none) ∧
    RemoveNodePool (fun _ => some "not found") = (Status.NotChanged, none) ∧
    RemoveNodePool (fun _ => some "boom") = (Status.NotChanged, some "boom") ∧
    RemoveNodePool (fun _ => none) = (Status.Changed, none) :=
  ⟨removeNodePool_spec.2.1 _ "busy" rfl (by decide),
   removeNodePool_spec.2.2.1 _ "not found" rfl (by decide) (by decide),
   removeNodePool_spec.2.2.2.1 _ "boom" rfl (by decide) (by decide),
   removeNodePool_spec.2.2.2.2 _ rfl⟩

/-- **C4.** Against a remote client whose every answer classifies as Busy,
`RemoveCluster` makes exactly `backoffSteps = 12` attempts, sleeping the fixed
`waitSec = 30`-second interval between consecutive attempts, and returns the
`ErrWaitTimeout`-style result, which is distinct from any `Fatal` remote
error. -/
theorem removeCluster_always_busy_exhausts (ctxErr : String) (cd : Nat → Option String)
    (h : ∀ i, classifyErr (cd i) = ErrClass.Busy) :
    RemoveCluster (fun _ => false) ctxErr cd = (WaitResult.timeout, 12, List.replicate 11 30) ∧
    backoffSteps = 12 ∧ waitSec = 30 ∧
    (∀ e, WaitResult.timeout ≠ WaitResult.condErr e) :=
  ⟨removeCluster_all_busy_eq ctxErr cd h, rfl, rfl, fun _ h' => WaitResult.noConfusion h'⟩

/-- Witness for **C4**: the always-busy client exhausts all 12 attempts. -/
theorem removeCluster_always_busy_exhausts_witness :
    RemoveCluster (fun _ => false) "ctx" (fun _ => some "busy") =
      (WaitResult.timeout, 12, List.replicate 11 30) :=
  (removeCluster_always_busy_exhausts "ctx" (fun _ => some "busy")
    (fun _ => by show classifyErr (some "busy") = ErrClass.Busy; decide)).1

/-- **C5.** If the remote client answers Busy on the first `N` attempts
(`N < 12`) and succeeds on attempt `N + 1`, `RemoveCluster` returns success
after exactly `N + 1` attempts, each of which issued a remote call. -/
theorem removeCluster_busy_then_success (ctxErr : String) (cd : Nat → Option String)
    (N : Nat) (hN : N < 12)
    (hbusy : ∀ i, i < N → classifyErr (cd i) = ErrClass.Busy)
    (hok : cd N = none) :
    RemoveCluster (fun _ => false) ctxErr cd = (WaitResult.ok, N + 1, List.replicate N 30) ∧
    removeClusterCallsList (fun _ => false) (N + 1) = List.range (N + 1) := by
  constructor
  · show expBackoffGo waitSec (removeClusterCond (fun _ => false) ctxErr cd) backoffSteps 0 [] = _
    have hb : ∀ j, j < N → removeClusterCond (fun _ => false) ctxErr cd (0 + j) = (false, none) :=
      fun j hj => removeClusterCond_of_busy _ _ _ _ rfl (hbusy (0 + j) (by omega))
    rw [show backoffSteps = 12 from rfl, show waitSec = 30 from rfl,
      expBackoffGo_skip_busy 30 _ N 12 0 [] (by omega) hb]
    have hsteps : 12 - N = (11 - N) + 1 := by omega
    rw [hsteps, expBackoffGo, removeClusterCond_of_none _ _ _ _ rfl (by simpa using hok)]
    simp
  · unfold removeClusterCallsList
    simp

/-- Witness for **C5** at `N = 2`: two busy answers then success on attempt 3. -/
theorem removeCluster_busy_then_success_witness :
    RemoveCluster (fun _ => false) "ctx" (fun i => if i < 2 then some "busy" else none) =
      (WaitResult.ok, 3, List.replicate 2 30) :=
  (removeCluster_busy_then_success "ctx" (fun i => if i < 2 then some "busy" else none) 2
    (by decide) (fun i hi => by interval_cases i <;> decide) (by decide)).1

/-- **C6.** The marker-based classification: `nil → None`; busy marker → `Busy`;
not-found marker (and not busy) → `Absent`; any other error → `Fatal`; and both
`RemoveCluster`'s condition and `RemoveNodePool` act exactly according to the
classification, a `Fatal` error being surfaced by `RemoveCluster` immediately
with no retry. -/
theorem errorClassifier_spec :
    (classifyErr none = ErrClass.None) ∧
    (∀ m, strContains m errWait = true → classifyErr (some m) = ErrClass.Busy) ∧
    (∀ m, strContains m errWait = false → strContains m errNotFound = true →
      classifyErr (some m) = ErrClass.Absent) ∧
    (∀ m, strContains m errWait = false → strContains m errNotFound = false →
      classifyErr (some m) = ErrClass.Fatal) ∧
    (∀ (ctxDone : Nat → Bool) (ctxErr : String) (cd : Nat → Option String) (i : Nat),
      ctxDone i = false →
      removeClusterCond ctxDone ctxErr cd i =
        (match classifyErr (cd i) with
         | ErrClass.None => (true, (none : Option String))
         | ErrClass.Busy => (false, none)
         | ErrClass.Absent => (true, none)
         | ErrClass.Fatal => (false, cd i))) ∧
    (∀ (ctxErr : String) (cd : Nat → Option String) (m : String), cd 0 = some m →
      classifyErr (cd 0) = ErrClass.Fatal →
      RemoveCluster (fun _ => false) ctxErr cd = (WaitResult.condErr m, 1, [])) ∧
    (∀ f : Nat → Option String,
      RemoveNodePool f =
        (match classifyErr (f 0) with
         | ErrClass.None => (Status.Changed, (none : Option String))
         | ErrClass.Busy => (Status.Retry, none)
         | ErrClass.Absent => (Status.NotChanged, none)
         | ErrClass.Fatal => (Status.NotChanged, f 0))) := by
  refine ⟨by simp [classifyErr], ?_, ?_, ?_, ?_, ?_, ?_⟩
  · intro m hw; simp [classifyErr, hw]
  · intro m hw hn; simp [classifyErr, hw, hn]
  · intro m hw hn; simp [classifyErr, hw, hn]
  · intro ctxDone ctxErr cd i hdone
    cases hcd : cd i with
    | none => simp [removeClusterCond, hdone, hcd, classifyErr]
    | some m =>
      cases hw : strContains m errWait with
      | true => simp [removeClusterCond, hdone, hcd, classifyErr, hw]
      | false =>
        cases hn : strContains m errNotFound with
        | true => simp [removeClusterCond, hdone, hcd, classifyErr, hw, hn]
        | false => simp [removeClusterCond, hdone, hcd, classifyErr, hw, hn]
  · intro ctxErr cd m hcd hf
    show expBackoffGo waitSec (removeClusterCond (fun _ => false) ctxErr cd) backoffSteps 0 [] = _
    rw [show backoffSteps = 11 + 1 from rfl, expBackoffGo,
      removeClusterCond_of_fatal _ _ _ _ m rfl hcd hf]
    simp
  · intro f
    cases hf : f 0 with
    | none => simp [RemoveNodePool, hf, classifyErr]
    | some m =>
      cases hw : strContains m errWait with
      | true => simp [RemoveNodePool, hf, classifyErr, hw]
      | false =>
        cases hn : strContains m errNotFound with
        | true => simp [RemoveNodePool, hf, classifyErr, hw, hn]
        | false => simp [RemoveNodePool, hf, classifyErr, hw, hn]

/-- Witness for **C6**: one concrete error of each class, and a Fatal error
surfaced by `RemoveCluster` on attempt 1. -/
theorem errorClassifier_spec_witness :
    classifyErr none = ErrClass.None ∧
    classifyErr (some "busy") = ErrClass.Busy ∧
    classifyErr (some "not found") = ErrClass.Absent ∧
    classifyErr (some "boom") = ErrClass.Fatal ∧
    RemoveCluster (fun _ => false) "ctx" (fun _ => some "boom") =
      (WaitResult.condErr "boom", 1, []) :=
  ⟨errorClassifier_spec.1,
   errorClassifier_spec.2.1 "busy" (by decide),
   errorClassifier_spec.2.2.1 "not found" (by decide) (by decide),
   errorClassifier_spec.2.2.2.1 "boom" (by decide) (by decide),
   errorClassifier_spec.2.2.2.2.2.1 "ctx" (fun _ => some "boom") "boom" rfl (by decide)⟩

/-- **C7.** An Absent-classified (not-found) error on attempt 1 makes
`RemoveCluster` return success on attempt 1, with no further attempts and no
error surfaced: deleting an already-deleted cluster is a no-op success. -/
theorem removeCluster_absent_success (ctxErr : String) (cd : Nat → Option String)
    (h : classifyErr (cd 0) = ErrClass.Absent) :
    RemoveCluster (fun _ => false) ctxErr cd = (WaitResult.ok, 1, []) := by
  show expBackoffGo waitSec (removeClusterCond (fun _ => false) ctxErr cd) backoffSteps 0 [] = _
  rw [show backoffSteps = 11 + 1 from rfl, expBackoffGo,
    removeClusterCond_of_absent _ _ _ _ rfl h]
  simp

/-- Witness for **C7**: a "not found" answer on the first attempt. -/
theorem removeCluster_absent_success_witness :
    RemoveCluster (fun _ => false) "ctx" (fun _ => some "not found") = (WaitResult.ok, 1, []) :=
  removeCluster_absent_success "ctx" (fun _ => some "not found") (by decide)

/-- **C9.** If the cancellation signal has fired when attempt `k` is issued
(after `k` busy attempts; `k = 0` covers "before the first attempt"),
`RemoveCluster` stops at attempt `k` with the cancellation error, the result is
independent of what the remote client would have answered from attempt `k` on,
and the remote calls issued are exactly those of attempts `0 .. k-1`. -/
theorem removeCluster_cancellation (ctxDone : Nat → Bool) (ctxErr : String)
    (cd cd' : Nat → Option String) (k : Nat) (hk : k < 12)
    (hfired : ctxDone k = true)
    (hbefore : ∀ j, j < k → ctxDone j = false ∧ classifyErr (cd j) = ErrClass.Busy)
    (hagree : ∀ j, j < k → cd' j = cd j) :
    RemoveCluster ctxDone ctxErr cd = (WaitResult.condErr ctxErr, k + 1, List.replicate k 30) ∧
    RemoveCluster ctxDone ctxErr cd' = RemoveCluster ctxDone ctxErr cd ∧
    removeClusterCallsList ctxDone (k + 1) = List.range k := by
  have main : ∀ cd₀ : Nat → Option String, (∀ j, j < k → classifyErr (cd₀ j) = ErrClass.Busy) →
      RemoveCluster ctxDone ctxErr cd₀ =
        (WaitResult.condErr ctxErr, k + 1, List.replicate k 30) := by
    intro cd₀ hb₀
    show expBackoffGo waitSec (removeClusterCond ctxDone ctxErr cd₀) backoffSteps 0 [] = _
    have hb : ∀ j, j < k → removeClusterCond ctxDone ctxErr cd₀ (0 + j) = (false, none) :=
      fun j hj => removeClusterCond_of_busy _ _ _ _
        (by simpa using (hbefore j hj).1) (by simpa using hb₀ j hj)
    rw [show backoffSteps = 12 from rfl, show waitSec = 30 from rfl,
      expBackoffGo_skip_busy 30 _ k 12 0 [] (by omega) hb]
    have hsteps : 12 - k = (11 - k) + 1 := by omega
    rw [hsteps, expBackoffGo,
      removeClusterCond_of_cancelled _ ctxErr _ (0 + k) (by simpa using hfired)]
    simp
  have h1 := main cd fun j hj => (hbefore j hj).2
  have h2 := main cd' fun j hj => by rw [hagree j hj]; exact (hbefore j hj).2
  refine ⟨h1, h2.trans h1.symm, ?_⟩
  unfold removeClusterCallsList
  have hr : List.range (k + 1) = List.range k ++ [k] := by
    simpa using List.range_succ (n := k)
  rw [hr, List.filter_append]
  have hall : (List.range k).filter (fun i => !ctxDone i) = List.range k :=
    List.filter_eq_self.mpr fun a ha => by
      have := (hbefore a (List.mem_range.mp ha)).1
      simp [this]
  have hlast : ([k].filter fun i => !ctxDone i) = [] := by simp [hfired]
  rw [hall, hlast, List.append_nil]

/-- Witness for **C9** at `k = 0`: signal fired before the first attempt — no
remote call is made (two clients disagreeing everywhere give the same result)
and the cancellation error is returned on attempt 1. -/
theorem removeCluster_cancellation_witness :
    RemoveCluster (fun _ => true) "context canceled" (fun _ => none) =
      (WaitResult.condErr "context canceled", 1, []) ∧
    RemoveCluster (fun _ => true) "context canceled" (fun _ => some "boom") =
      RemoveCluster (fun _ => true) "context canceled" (fun _ => none) ∧
    removeClusterCallsList (fun _ => true) 1 = List.range 0 :=
  removeCluster_cancellation (fun _ => true) "context canceled"
    (fun _ => none) (fun _ => some "boom") 0 (by decide) rfl
    (fun j hj => absurd hj (by omega)) (fun j hj => absurd hj (by omega))

/-- **C10.** An error message containing both markers classifies as Busy (the
busy check runs first): `RemoveNodePool` answers `(Retry, nil)` rather than
`(NotChanged, nil)`, and `RemoveCluster` keeps retrying (to exhaustion if the
error persists) instead of treating the delete as an idempotent success. -/
theorem busyMarker_precedence (m : String)
    (hb : strContains m errWait = true) (_hn : strContains m errNotFound = true) :
    classifyErr (some m) = ErrClass.Busy ∧
    (∀ f : Nat → Option String, f 0 = some m → RemoveNodePool f = (Status.Retry, none)) ∧
    (∀ (ctxDone : Nat → Bool) (ctxErr : String) (cd : Nat → Option String) (i : Nat),
      ctxDone i = false → cd i = some m →
      removeClusterCond ctxDone ctxErr cd i = (false, none)) ∧
    (∀ ctxErr : String,
      RemoveCluster (fun _ => false) ctxErr (fun _ => some m) =
        (WaitResult.timeout, 12, List.replicate 11 30)) := by
  have hclass : classifyErr (some m) = ErrClass.Busy := by simp [classifyErr, hb]
  refine ⟨hclass, ?_, ?_, ?_⟩
  · intro f h; unfold RemoveNodePool; rw [h]; simp [hb]
  · intro ctxDone ctxErr cd i hdone hcd
    exact removeClusterCond_of_busy _ _ _ _ hdone (by rw [hcd]; exact hclass)
  · intro ctxErr
    exact removeCluster_all_busy_eq ctxErr _ fun _ => hclass

/-- Witness for **C10**: a message containing both markers. -/
theorem busyMarker_precedence_witness :
    classifyErr (some "busy not found") = ErrClass.Busy ∧
    RemoveNodePool (fun _ => some "busy not found") = (Status.Retry, none) ∧
    RemoveCluster (fun _ => false) "ctx" (fun _ => some "busy not found") =
      (WaitResult.timeout, 12, List.replicate 11 30) :=
  ⟨(busyMarker_precedence "busy not found" (by decide) (by decide)).1,
   (busyMarker_precedence "busy not found" (by decide) (by decide)).2.1 _ rfl,
   (busyMarker_precedence "busy not found" (by decide) (by decide)).2.2.2 "ctx"⟩
